import Mathlib

/-
Verification of the PERT/CPM analysis tool (sources: src/ProjectCLI.py,
src/ProjectGUI.py, src/unnamed/part_000 alias "Project lpt.py").

The repository holds three variants of the same program.  ProjectCLI.py and
part_000 share the same engine: `calculate_expected_time`,
`calculate_standard_deviation`, a `find_critical_path` that runs a forward
pass (EST/EFT) and a backward pass (LFT/LST) and then derives the returned
result purely by enumerating all simple paths between min(G.nodes) and
max(G.nodes); the probability step computes `Z = (T - D) / sqrt(sum σ²)` and
truncates it with `math.floor(Z * 100) / 100`.  ProjectGUI.py differs: it
validates `O ≤ M ≤ P` before inserting an activity, guards the zero
standard-deviation case before dividing, and rounds `Z` with `round(Z, 2)`.

The embedding below models node labels as ℕ, graphs as edge lists in
insertion order (networkx keeps nodes, successors and predecessors in
insertion order), the string-keyed activity dictionary as an association
list keyed by the (start, end) pair, and Python float arithmetic on the
estimate statistics as exact arithmetic on ℚ.
-/

namespace PertCpm

/-- Per-activity data stored by every variant: the three estimates and the
expected time `E` computed at insertion time with `calculate_expected_time`.
(The GUI variants additionally store the standard deviation under key `V`;
it is always `calculate_standard_deviation o m p`, recomputed here when
needed.) -/
structure Act where
  o : ℕ
  m : ℕ
  p : ℕ
  e : ℕ
deriving DecidableEq

abbrev Edge := ℕ × ℕ

abbrev ActMap := List (Edge × Act)

/-- Source `calculate_expected_time(o, m, p) = int((o + 4 * m + p) / 6)`
(identical in all three files).  On nonnegative integers Python's `int` of
the true division truncates downward, i.e. ℕ floor division. -/
def calculate_expected_time (o m p : ℕ) : ℕ := (o + 4 * m + p) / 6

/-- Source `calculate_standard_deviation(o, m, p) = (p - o) / 6` (identical
in all three files); Python float division modelled on ℚ. -/
def calculate_standard_deviation (o m p : ℕ) : ℚ := ((p : ℚ) - (o : ℚ)) / 6

/-- Lookup of `activities[f"{u}-{v}"]`: the Python dict keyed by the
string "u-v" is modelled as an association list keyed by the pair. -/
def lookupAct (acts : ActMap) (k : Edge) : Option Act :=
  (acts.find? (fun kv => decide (kv.1 = k))).map (fun kv => kv.2)

/-- `G.nodes` in networkx insertion order: `G.add_edge(u, v)` registers `u`
then `v` when not already present. -/
def nodesOf (es : List Edge) : List ℕ :=
  es.foldl (fun ns e =>
    let ns1 := if e.1 ∈ ns then ns else ns ++ [e.1]
    if e.2 ∈ ns1 then ns1 else ns1 ++ [e.2]) []

/-- `min(G.nodes)` (value 0 is a placeholder for the empty graph, where the
Python call raises ValueError; `find_critical_path` returns `none` there). -/
def minNode (es : List Edge) : ℕ :=
  match nodesOf es with
  | [] => 0
  | n :: ns => ns.foldl min n

/-- `max(G.nodes)` (same remark on the empty graph as for `minNode`). -/
def maxNode (es : List Edge) : ℕ :=
  match nodesOf es with
  | [] => 0
  | n :: ns => ns.foldl max n

/-- `G.successors(u)` in edge-insertion order. -/
def succs (es : List Edge) (u : ℕ) : List ℕ :=
  (es.filter (fun e => decide (e.1 = u))).map (fun e => e.2)

/-- `G.predecessors(v)` in edge-insertion order. -/
def preds (es : List Edge) (v : ℕ) : List ℕ :=
  (es.filter (fun e => decide (e.2 = v))).map (fun e => e.1)

/-- `nx.all_simple_paths(G, source, target)`: depth-first enumeration of the
simple paths, children visited in successor (insertion) order.  `fuel`
bounds the recursion depth; a simple path visits at most `#nodes` distinct
nodes, so fuel `#nodes + 1` is exhaustive. -/
def simplePathsAux (es : List Edge) (target : ℕ) :
    ℕ → ℕ → List ℕ → List (List ℕ)
  | 0, _, _ => []
  | fuel + 1, u, visited =>
    if u = target then [[u]]
    else (((succs es u).filter (fun v => decide (v ∉ visited))).map
        (fun v => (simplePathsAux es target fuel v (u :: visited)).map
          (fun q => u :: q))).flatten

/-- The path list walked by the loop
`for path in nx.all_simple_paths(G, source=min(G.nodes), target=max(G.nodes))`
in ProjectCLI.py line 55 / part_000 line 61. -/
def allPathsMinMax (es : List Edge) : List (List ℕ) :=
  simplePathsAux es (maxNode es) ((nodesOf es).length + 1) (minNode es) []

/-- Consecutive node pairs of a path (the candidate activity keys
`f"{path[i]}-{path[i+1]}"`). -/
def pathEdges : List ℕ → List Edge
  | [] => []
  | [_] => []
  | a :: b :: rest => (a, b) :: pathEdges (b :: rest)

/-- `path_duration = sum(activities[key]['E'] ... if key in activities)`:
keys missing from the activity dict are skipped. -/
def pathDuration (acts : ActMap) (pa : List ℕ) : ℕ :=
  (pathEdges pa).foldl (fun s k =>
    match lookupAct acts k with
    | some a => s + a.e
    | none => s) 0

/-- `[(path[i], path[i+1]) ... if key in activities]`: the edge pairs of a
path that are present in the activity dict. -/
def critEdges (acts : ActMap) (pa : List ℕ) : List Edge :=
  (pathEdges pa).filter (fun k => (lookupAct acts k).isSome)

/-- One iteration of the loop in ProjectCLI.py lines 55-59: the running best
is replaced only when the candidate duration is strictly greater. -/
def bestStep (acts : ActMap) (best : List Edge × ℕ) (pa : List ℕ) :
    List Edge × ℕ :=
  if best.2 < pathDuration acts pa then (critEdges acts pa, pathDuration acts pa)
  else best

/-- `find_critical_path` of ProjectCLI.py / part_000, restricted to its
returned value `(critical_path, total_duration)`.  The function also fills
EST/EFT/LFT/LST dictionaries (embedded separately as `forwardPass`), but the
returned pair depends only on the simple-path enumeration, with running
maximum starting at `([], 0)`.  On the empty graph `min(G.nodes)` raises
ValueError in Python; that is `none` here. -/
def find_critical_path (es : List Edge) (acts : ActMap) :
    Option (List Edge × ℕ) :=
  if nodesOf es = [] then none
  else some ((allPathsMinMax es).foldl (bestStep acts) ([], 0))

/-- Association-list lookup for the EST/EFT dictionaries. -/
def lookupNat (l : List (ℕ × ℕ)) (k : ℕ) : Option ℕ :=
  (l.find? (fun kv => decide (kv.1 = k))).map (fun kv => kv.2)

/-- Lookup with default 0 (the Python code only reads keys it has written,
so the default is never consulted in the situations modelled below). -/
def lookupD (l : List (ℕ × ℕ)) (k : ℕ) : ℕ := (lookupNat l k).getD 0

/-- First node of `remaining` all of whose predecessors have already been
emitted: the next node produced by Kahn-style `nx.topological_sort`. -/
def topoStep (es : List Edge) (remaining : List ℕ) : Option ℕ :=
  remaining.find? (fun n => decide (∀ q ∈ preds es n, q ∉ remaining))

/-- Fuel-bounded Kahn topological sort. -/
def topoAux (es : List Edge) : ℕ → List ℕ → List ℕ
  | 0, _ => []
  | fuel + 1, remaining =>
    match topoStep es remaining with
    | none => []
    | some n => n :: topoAux es fuel (remaining.erase n)

/-- `nx.topological_sort(G)` as a list (deterministic for the concrete
acyclic graphs used below, where at each step a single node is ready or the
ready node chosen first in node-insertion order matches networkx). -/
def topoSort (es : List Edge) : List ℕ :=
  topoAux es (nodesOf es).length (nodesOf es)

/-- The expected time of the first incoming edge of `n` (in predecessor
insertion order) that is present in the activity dict — the `break` loop of
ProjectCLI.py lines 29-33. -/
def firstIncomingE (es : List Edge) (acts : ActMap) (n : ℕ) : Option ℕ :=
  (preds es n).findSome? (fun q => (lookupAct acts (q, n)).map (fun a => a.e))

/-- Forward pass of ProjectCLI.py lines 21-34 / part_000 lines 27-40,
returning the (EST, EFT) dictionaries in the order written.  Per node:
`EST[n] = 0` when `n` has no predecessor, else the maximum of the already
computed `EFT` of its predecessors; `EFT[n] = EST[n] + expected_time` where
`expected_time` comes from the FIRST incoming edge of `n` found in the
activity dict (not from the edge that determined the maximum), and
`EFT[n] = EST[n]` when `n` has no predecessor.  (When `n` has predecessors
but none of its incoming edges is in the dict, the Python code reuses a
stale `expected_time` or raises NameError; modelled with default 0, a case
no theorem below exercises since every edge of every network used carries
an activity.) -/
def forwardPass (es : List Edge) (acts : ActMap) :
    List (ℕ × ℕ) × List (ℕ × ℕ) :=
  (topoSort es).foldl (fun st n =>
    let est := if preds es n = [] then 0
               else ((preds es n).map (lookupD st.2)).foldl max 0
    let eft := if preds es n = [] then est
               else est + (firstIncomingE es acts n).getD 0
    (st.1 ++ [(n, est)], st.2 ++ [(n, eft)])) ([], [])

/-- Modelled from the spec: the textbook forward-pass recurrence of spec
section 4.3, "EST(n) = max over incoming activities a = (p → n) of EFT(p),
where EFT(p) = EST(p) + E(a)", i.e.
`EST(n) = max over predecessors p of (EST(p) + E(p, n))`, start nodes at 0.
Stated only for comparison with the code's `forwardPass`. -/
def specEST (es : List Edge) (acts : ActMap) : List (ℕ × ℕ) :=
  (topoSort es).foldl (fun st n =>
    let est := ((preds es n).map (fun q =>
        lookupD st q + ((lookupAct acts (q, n)).map (fun a => a.e)).getD 0)).foldl max 0
    st ++ [(n, est)]) []

/-- Nodes with in-degree 0 (`start_nodes` of ProjectGUI.py line 19). -/
def sourceNodes (es : List Edge) : List ℕ :=
  (nodesOf es).filter (fun n => decide (preds es n = []))

/-- Nodes with out-degree 0 (`end_nodes` of ProjectGUI.py line 20). -/
def sinkNodes (es : List Edge) : List ℕ :=
  (nodesOf es).filter (fun n => decide (succs es n = []))

/-- Modelled from the spec: `compute_schedule` per spec sections 4.1/4.3
must reject (StructuralError, here `none`) unless the network has exactly
one source and exactly one sink, and otherwise computes the critical path
between the structural source and sink.  Stated only for comparison with
the code, which never performs this validation. -/
def structural_critical (es : List Edge) (acts : ActMap) :
    Option (List Edge × ℕ) :=
  match sourceNodes es, sinkNodes es with
  | [s], [t] =>
    some ((simplePathsAux es t ((nodesOf es).length + 1) s []).foldl
      (bestStep acts) ([], 0))
  | _, _ => none

/-- Network state mutated by the input handlers: the graph plus the
activity dict. -/
structure NetState where
  edges : List Edge
  acts : ActMap

/-- `G.add_edge(s, e)`: idempotent on an existing edge. -/
def addEdge (es : List Edge) (s e : ℕ) : List Edge :=
  if (s, e) ∈ es then es else es ++ [(s, e)]

/-- Dict assignment `activities[key] = {...}`: overwrites the key. -/
def insertAct (acts : ActMap) (k : Edge) (a : Act) : ActMap :=
  (k, a) :: acts.filter (fun kv => decide (kv.1 ≠ k))

def emptyNet : NetState := ⟨[], []⟩

/-- The activity-adding step of ProjectCLI.py main lines 124-140 (and of
part_000 lines 125-153), after the integer parses succeeded: the edge and
the activity entry are stored unconditionally — there is no check of
`o ≤ m ≤ p` in these variants. -/
def cli_add_activity (st : NetState) (s e o m p : ℕ) : NetState :=
  { edges := addEdge st.edges s e,
    acts := insertAct st.acts (s, e)
      ⟨o, m, p, calculate_expected_time o m p⟩ }

/-- `on_add_activity` of ProjectGUI.py lines 75-107, after the integer
parses succeeded: if `not (o <= m <= p)` an error dialog is shown and the
handler returns before touching `G` or `activities` (`none` here);
otherwise the activity entry and the edge are stored. -/
def gui_on_add_activity (st : NetState) (s e o m p : ℕ) : Option NetState :=
  if o ≤ m ∧ m ≤ p then
    some { edges := addEdge st.edges s e,
           acts := insertAct st.acts (s, e)
             ⟨o, m, p, calculate_expected_time o m p⟩ }
  else none

/-- Squared standard deviation contributed by one critical-path edge
(`calculate_standard_deviation(...) ** 2` when the key is present, skipped
otherwise — ProjectCLI.py lines 157-160).  ProjectGUI.py sums
`activities[key]['V'] ** 2` with `V = calculate_standard_deviation(...)`,
the same quantity. -/
def edgeVar (acts : ActMap) (k : Edge) : ℚ :=
  match lookupAct acts k with
  | some a => calculate_standard_deviation a.o a.m a.p ^ 2
  | none => 0

/-- `total_std_dev` before the square root: the summed variance of the
critical path. -/
def totalVariance (acts : ActMap) (cp : List Edge) : ℚ :=
  cp.foldl (fun s k => s + edgeVar acts k) 0

/-- `math.floor(Z * 100) / 100` — the CLI/part_000 two-decimal truncation,
toward negative infinity (ProjectCLI.py line 165, part_000 line 186). -/
def floor2 (q : ℚ) : ℚ := ((⌊q * 100⌋ : ℤ) : ℚ) / 100

/-- Round-half-to-even on ℚ: the rounding used by Python's built-in
`round` (modelled on the exact rational value). -/
def roundHalfEven (q : ℚ) : ℤ :=
  if q - ⌊q⌋ < 1 / 2 then ⌊q⌋
  else if 1 / 2 < q - ⌊q⌋ then ⌊q⌋ + 1
  else if ⌊q⌋ % 2 = 0 then ⌊q⌋ else ⌊q⌋ + 1

/-- `round(Z, 2)` — ProjectGUI.py line 137. -/
def round2 (q : ℚ) : ℚ := ((roundHalfEven (q * 100) : ℤ) : ℚ) / 100

/-- The CLI/part_000 probability step (ProjectCLI.py lines 163-167):
`Z = (T - D) / σ` raises ZeroDivisionError when `σ = 0` (`none` here), else
`Z` is floor-truncated to two decimals and fed to the normal CDF.  `σ`
stands for `math.sqrt(total_std_dev²)`; the CDF (scipy's `norm.cdf`) is
external to the repository and passed as a parameter. -/
def cli_prob (cdf : ℚ → ℚ) (T D : ℤ) (σ : ℚ) : Option ℚ :=
  if σ = 0 then none
  else some (cdf (floor2 (((T : ℚ) - (D : ℚ)) / σ)))

/-- The GUI probability step (ProjectGUI.py lines 128-138): when
`total_std_dev == 0` an informational dialog is shown and the handler
returns with no numeric probability (`none` here); otherwise `Z` is rounded
to two decimals with `round(Z, 2)` and fed to the normal CDF. -/
def gui_prob (cdf : ℚ → ℚ) (T D : ℤ) (σ : ℚ) : Option ℚ :=
  if σ = 0 then none
  else some (cdf (round2 (((T : ℚ) - (D : ℚ)) / σ)))

/- Concrete networks used by the claims. -/

/-- Spec section 8 parallel-path network: 1-2 (O=1,M=2,P=3),
1-3 (O=4,M=4,P=4), 2-3 (O=1,M=1,P=1). -/
def demo1es : List Edge := [(1, 2), (1, 3), (2, 3)]

def demo1acts : ActMap :=
  [((1, 2), ⟨1, 2, 3, calculate_expected_time 1 2 3⟩),
   ((1, 3), ⟨4, 4, 4, calculate_expected_time 4 4 4⟩),
   ((2, 3), ⟨1, 1, 1, calculate_expected_time 1 1 1⟩)]

/-- The same parallel-path shape with every estimate 0. -/
def zero3es : List Edge := [(1, 2), (1, 3), (2, 3)]

def zero3acts : ActMap :=
  [((1, 2), ⟨0, 0, 0, 0⟩), ((1, 3), ⟨0, 0, 0, 0⟩), ((2, 3), ⟨0, 0, 0, 0⟩)]

/-- Chain 1→2→3 with E-values 3 and 4 (spec section 8 single-chain case). -/
def chainEs : List Edge := [(1, 2), (2, 3)]

def chainActs : ActMap :=
  [((1, 2), ⟨3, 3, 3, calculate_expected_time 3 3 3⟩),
   ((2, 3), ⟨4, 4, 4, calculate_expected_time 4 4 4⟩)]

/-- Diamond 1→2→4, 1→3→4 with E-values 1, 10, 7, 1 (all O=M=P). -/
def n2es : List Edge := [(1, 2), (1, 3), (2, 4), (3, 4)]

def n2acts : ActMap :=
  [((1, 2), ⟨1, 1, 1, 1⟩), ((1, 3), ⟨10, 10, 10, 10⟩),
   ((2, 4), ⟨7, 7, 7, 7⟩), ((3, 4), ⟨1, 1, 1, 1⟩)]

/-- Two-sink network 1→2, 1→3. -/
def twoSinkEs : List Edge := [(1, 2), (1, 3)]

def twoSink1acts : ActMap :=
  [((1, 2), ⟨1, 1, 1, 1⟩), ((1, 3), ⟨1, 1, 1, 1⟩)]

def twoSink2acts : ActMap :=
  [((1, 2), ⟨2, 2, 2, 2⟩), ((1, 3), ⟨2, 2, 2, 2⟩)]

/-- Network 3→1→2: the structural source (3) is the max label and the
structural sink (2) is neither min nor max. -/
def n9es : List Edge := [(3, 1), (1, 2)]

def n9acts : ActMap :=
  [((3, 1), ⟨5, 5, 5, 5⟩), ((1, 2), ⟨5, 5, 5, 5⟩)]

/-- Chain 1→2→3 with every estimate 0. -/
def zeroChainEs : List Edge := [(1, 2), (2, 3)]

def zeroChainActs : ActMap :=
  [((1, 2), ⟨0, 0, 0, 0⟩), ((2, 3), ⟨0, 0, 0, 0⟩)]

/-- Single-activity critical path with O = M = P = 2 (zero variance). -/
def c4acts : ActMap := [((1, 2), ⟨2, 2, 2, 2⟩)]

/- Helper lemmas about the path-selection fold of `find_critical_path`. -/

theorem bestStep_snd_le (acts : ActMap) (b : List Edge × ℕ) (pa : List ℕ) :
    b.2 ≤ (bestStep acts b pa).2 := by
  unfold bestStep
  by_cases h : b.2 < pathDuration acts pa
  · rw [if_pos h]
    exact le_of_lt h
  · rw [if_neg h]

theorem foldl_bestStep_snd_le (acts : ActMap) (l : List (List ℕ)) :
    ∀ b, b.2 ≤ (l.foldl (bestStep acts) b).2 := by
  induction l with
  | nil =>
    intro b
    exact le_refl _
  | cons pa l ih =>
    intro b
    simp only [List.foldl_cons]
    exact le_trans (bestStep_snd_le acts b pa) (ih (bestStep acts b pa))

theorem foldl_bestStep_mem_le (acts : ActMap) (l : List (List ℕ)) :
    ∀ pa ∈ l, ∀ b, pathDuration acts pa ≤ (l.foldl (bestStep acts) b).2 := by
  induction l with
  | nil =>
    intro pa h
    cases h
  | cons q l ih =>
    intro pa hmem b
    simp only [List.foldl_cons]
    rcases List.mem_cons.mp hmem with h | h
    · subst h
      refine le_trans ?_ (foldl_bestStep_snd_le acts l (bestStep acts b pa))
      unfold bestStep
      by_cases hlt : b.2 < pathDuration acts pa
      · rw [if_pos hlt]
      · rw [if_neg hlt]
        exact le_of_not_lt hlt
    · exact ih pa h (bestStep acts b q)

theorem foldl_bestStep_cases (acts : ActMap) (l : List (List ℕ)) :
    ∀ b, l.foldl (bestStep acts) b = b
      ∨ ∃ pa ∈ l, l.foldl (bestStep acts) b = (critEdges acts pa, pathDuration acts pa)
          ∧ b.2 < pathDuration acts pa := by
  induction l with
  | nil =>
    intro b
    exact Or.inl rfl
  | cons q l ih =>
    intro b
    simp only [List.foldl_cons]
    by_cases hlt : b.2 < pathDuration acts q
    · have hstep : bestStep acts b q = (critEdges acts q, pathDuration acts q) := by
        unfold bestStep
        rw [if_pos hlt]
      rcases ih (bestStep acts b q) with h | ⟨pa, hpa, heq, hgt⟩
      · refine Or.inr ⟨q, List.mem_cons_self q l, ?_, hlt⟩
        rw [h, hstep]
      · refine Or.inr ⟨pa, List.mem_cons_of_mem q hpa, heq, ?_⟩
        rw [hstep] at hgt
        exact lt_trans hlt hgt
    · have hstep : bestStep acts b q = b := by
        unfold bestStep
        rw [if_neg hlt]
      rcases ih (bestStep acts b q) with h | ⟨pa, hpa, heq, hgt⟩
      · refine Or.inl ?_
        rw [h, hstep]
      · refine Or.inr ⟨pa, List.mem_cons_of_mem q hpa, heq, ?_⟩
        rw [hstep] at hgt
        exact hgt

theorem find_critical_path_spec (es : List Edge) (acts : ActMap)
    (r : List Edge × ℕ) (h : find_critical_path es acts = some r) :
    (∀ pa ∈ allPathsMinMax es, pathDuration acts pa ≤ r.2)
    ∧ (r = ([], 0) ∨ ∃ pa ∈ allPathsMinMax es,
        r = (critEdges acts pa, pathDuration acts pa)
        ∧ 0 < pathDuration acts pa) := by
  unfold find_critical_path at h
  by_cases hn : nodesOf es = []
  · rw [if_pos hn] at h
    cases h
  · rw [if_neg hn] at h
    have hr : (allPathsMinMax es).foldl (bestStep acts) ([], 0) = r :=
      Option.some.inj h
    constructor
    · intro pa hpa
      rw [← hr]
      exact foldl_bestStep_mem_le acts _ pa hpa ([], 0)
    · rcases foldl_bestStep_cases acts (allPathsMinMax es) ([], 0) with
        h0 | ⟨pa, hpa, heq, hgt⟩
      · left
        rw [← hr, h0]
      · right
        refine ⟨pa, hpa, by rw [← hr, heq], ?_⟩
        simpa using hgt

/- Helper lemmas about the activity map. -/

theorem lookupAct_insert (acts : ActMap) (k : Edge) (a : Act) :
    lookupAct (insertAct acts k a) k = some a := by
  unfold lookupAct insertAct
  rw [List.find?_cons_of_pos]
  · rfl
  · simp

theorem lookupAct_mem (acts : ActMap) (k : Edge) (a : Act)
    (h : lookupAct acts k = some a) : (k, a) ∈ acts := by
  induction acts with
  | nil => cases h
  | cons kv t ih =>
    unfold lookupAct at h
    by_cases hk : kv.1 = k
    · rw [List.find?_cons_of_pos _ (by simpa using hk)] at h
      have h2 : kv.2 = a := Option.some.inj h
      have hkv : kv = (k, a) := by
        rcases kv with ⟨k1, a1⟩
        simp only at hk h2
        rw [hk, h2]
      rw [hkv]
      exact List.mem_cons_self _ _
    · rw [List.find?_cons_of_neg _ (by simpa using hk)] at h
      exact List.mem_cons_of_mem kv (ih h)

theorem totalVariance_zero (acts : ActMap) (cp : List Edge)
    (hall : ∀ k ∈ cp, ∀ a, lookupAct acts k = some a → a.o = a.p) :
    totalVariance acts cp = 0 := by
  induction cp with
  | nil => rfl
  | cons k t ih =>
    have hk : edgeVar acts k = 0 := by
      unfold edgeVar
      rcases hfind : lookupAct acts k with _ | a
      · rfl
      · have ho := hall k (List.mem_cons_self k t) a hfind
        simp [calculate_standard_deviation, ho]
    show (k :: t).foldl (fun s k => s + edgeVar acts k) 0 = 0
    rw [List.foldl_cons, hk, add_zero]
    exact ih (fun k2 hk2 a ha => hall k2 (List.mem_cons_of_mem k hk2) a ha)

/- Helper lemmas about the two-decimal truncations. -/

theorem floor2_mono : Monotone floor2 := by
  intro a b hab
  unfold floor2
  have h : ⌊a * 100⌋ ≤ ⌊b * 100⌋ := Int.floor_mono (by linarith)
  have h2 : ((⌊a * 100⌋ : ℤ) : ℚ) ≤ ((⌊b * 100⌋ : ℤ) : ℚ) := by
    exact_mod_cast h
  linarith

theorem roundHalfEven_le (q : ℚ) : roundHalfEven q ≤ ⌊q⌋ + 1 := by
  unfold roundHalfEven
  split_ifs <;> omega

theorem le_roundHalfEven (q : ℚ) : ⌊q⌋ ≤ roundHalfEven q := by
  unfold roundHalfEven
  split_ifs <;> omega

theorem roundHalfEven_mono : Monotone roundHalfEven := by
  intro a b hab
  have hfl : ⌊a⌋ ≤ ⌊b⌋ := Int.floor_mono hab
  rcases lt_or_eq_of_le hfl with hlt | heq
  · have h1 := roundHalfEven_le a
    have h2 := le_roundHalfEven b
    omega
  · have hfa : a - (⌊a⌋ : ℚ) ≤ b - (⌊b⌋ : ℚ) := by
      have hc : ((⌊a⌋ : ℤ) : ℚ) = ((⌊b⌋ : ℤ) : ℚ) := by exact_mod_cast heq
      linarith
    unfold roundHalfEven
    split_ifs <;> first
      | omega
      | (exfalso; linarith)

theorem round2_mono : Monotone round2 := by
  intro a b hab
  unfold round2
  have h : roundHalfEven (a * 100) ≤ roundHalfEven (b * 100) :=
    roundHalfEven_mono (by linarith)
  have h2 : ((roundHalfEven (a * 100) : ℤ) : ℚ)
      ≤ ((roundHalfEven (b * 100) : ℤ) : ℚ) := by exact_mod_cast h
  linarith

theorem tvC4_eq_zero : totalVariance c4acts [(1, 2)] = 0 := by
  have hl : lookupAct c4acts (1, 2) = some ⟨2, 2, 2, 2⟩ := by decide
  have he : edgeVar c4acts (1, 2) = 0 := by
    unfold edgeVar
    rw [hl]
    simp [calculate_standard_deviation]
  show [(1, 2)].foldl (fun s k => s + edgeVar c4acts k) 0 = 0
  rw [List.foldl_cons, he, add_zero]
  rfl

/- Claim theorems. -/

/-- C6: for every triple with `O ≤ M ≤ P`, `calculate_expected_time` equals
the floor of `(O + 4M + P) / 6` and lies in the interval `[O, P]`;
`calculate_standard_deviation` is nonnegative and vanishes exactly when
`O = P`. -/
theorem c6_estimator_props (o m p : ℕ) (h1 : o ≤ m) (h2 : m ≤ p) :
    calculate_expected_time o m p = ⌊(((o + 4 * m + p : ℕ) : ℚ)) / 6⌋₊
    ∧ o ≤ calculate_expected_time o m p
    ∧ calculate_expected_time o m p ≤ p
    ∧ 0 ≤ calculate_standard_deviation o m p
    ∧ (calculate_standard_deviation o m p = 0 ↔ o = p) := by
  refine ⟨?_, ?_, ?_, ?_, ?_⟩
  · rw [show ((6 : ℚ)) = ((6 : ℕ) : ℚ) by norm_num, Nat.floor_div_nat,
      Nat.floor_natCast]
    rfl
  · unfold calculate_expected_time
    rw [Nat.le_div_iff_mul_le (by norm_num : 0 < 6)]
    omega
  · unfold calculate_expected_time
    have hlt : o + 4 * m + p < (p + 1) * 6 := by omega
    have := (Nat.div_lt_iff_lt_mul (by norm_num : 0 < 6)).mpr hlt
    omega
  · unfold calculate_standard_deviation
    have hop : (o : ℚ) ≤ (p : ℚ) := by exact_mod_cast h1.trans h2
    exact div_nonneg (by linarith) (by norm_num)
  · unfold calculate_standard_deviation
    constructor
    · intro h
      rcases div_eq_zero_iff.mp h with h0 | h0
      · have : (o : ℚ) = (p : ℚ) := by linarith
        exact_mod_cast this
      · norm_num at h0
    · intro h
      subst h
      simp

/-- Witness for C6 at (O, M, P) = (1, 2, 3). -/
theorem c6_witness :
    ((1 : ℕ) ≤ 2) ∧ ((2 : ℕ) ≤ 3)
    ∧ (calculate_expected_time 1 2 3 = ⌊(((1 + 4 * 2 + 3 : ℕ) : ℚ)) / 6⌋₊
        ∧ 1 ≤ calculate_expected_time 1 2 3
        ∧ calculate_expected_time 1 2 3 ≤ 3
        ∧ 0 ≤ calculate_standard_deviation 1 2 3
        ∧ (calculate_standard_deviation 1 2 3 = 0 ↔ 1 = 3)) :=
  ⟨by norm_num, by norm_num,
    c6_estimator_props 1 2 3 (by norm_num) (by norm_num)⟩

/-- C10: when every simple path enumerated between the min- and max-labeled
nodes has summed expected duration 0, `find_critical_path` returns the empty
critical path with total duration 0: the running best starts at `([], 0)`
and is replaced only on a strictly greater duration. -/
theorem c10_zero_paths (es : List Edge) (acts : ActMap)
    (hn : nodesOf es ≠ [])
    (h0 : ∀ pa ∈ allPathsMinMax es, pathDuration acts pa = 0) :
    find_critical_path es acts = some ([], 0) := by
  unfold find_critical_path
  rw [if_neg hn]
  rcases foldl_bestStep_cases acts (allPathsMinMax es) ([], 0) with
    h | ⟨pa, hpa, _, hgt⟩
  · rw [h]
  · exfalso
    have h1 := h0 pa hpa
    have h2 : 0 < pathDuration acts pa := hgt
    omega

/-- Witness for C10: the chain 1→2→3 with all estimates 0. -/
theorem c10_witness :
    (nodesOf zeroChainEs ≠ [])
    ∧ (∀ pa ∈ allPathsMinMax zeroChainEs, pathDuration zeroChainActs pa = 0)
    ∧ find_critical_path zeroChainEs zeroChainActs = some ([], 0) :=
  ⟨by decide, by decide,
    c10_zero_paths zeroChainEs zeroChainActs (by decide) (by decide)⟩

/-- C9: the CLI `find_critical_path` computes its result over the simple
paths between `min(G.nodes)` and `max(G.nodes)`: every returned result
bounds the durations of exactly those paths and (when nonempty) is one of
them.  On the network 3→1→2 the structural source is 3 and the structural
sink is 2, yet the code returns `([], 0)` — the best over the (empty) set
of paths from the min label 1 to the max label 3 — while the spec-modelled
computation between the structural endpoints yields `([(3,1),(1,2)], 10)`. -/
theorem c9_min_max_endpoints (es : List Edge) (acts : ActMap)
    (r : List Edge × ℕ) (h : find_critical_path es acts = some r) :
    ((∀ pa ∈ allPathsMinMax es, pathDuration acts pa ≤ r.2)
      ∧ (r = ([], 0) ∨ ∃ pa ∈ allPathsMinMax es,
          r = (critEdges acts pa, pathDuration acts pa)))
    ∧ (sourceNodes n9es = [3] ∧ sinkNodes n9es = [2]
        ∧ minNode n9es = 1 ∧ maxNode n9es = 3
        ∧ find_critical_path n9es n9acts = some ([], 0)
        ∧ structural_critical n9es n9acts = some ([(3, 1), (1, 2)], 10)) := by
  have hs := find_critical_path_spec es acts r h
  refine ⟨⟨hs.1, ?_⟩, by decide⟩
  rcases hs.2 with h0 | ⟨pa, hpa, heq, _⟩
  · exact Or.inl h0
  · exact Or.inr ⟨pa, hpa, heq⟩

/-- Witness for C9 at the network 3→1→2. -/
theorem c9_witness :
    (find_critical_path n9es n9acts = some ([], 0))
    ∧ (((∀ pa ∈ allPathsMinMax n9es,
          pathDuration n9acts pa ≤ (([], 0) : List Edge × ℕ).2)
      ∧ ((([], 0) : List Edge × ℕ) = ([], 0)
          ∨ ∃ pa ∈ allPathsMinMax n9es,
              (([], 0) : List Edge × ℕ)
                = (critEdges n9acts pa, pathDuration n9acts pa)))
    ∧ (sourceNodes n9es = [3] ∧ sinkNodes n9es = [2]
        ∧ minNode n9es = 1 ∧ maxNode n9es = 3
        ∧ find_critical_path n9es n9acts = some ([], 0)
        ∧ structural_critical n9es n9acts = some ([(3, 1), (1, 2)], 10))) :=
  ⟨by decide, c9_min_max_endpoints n9es n9acts ([], 0) (by decide)⟩

/-- C5 counterexample: on the two-sink network 1→2, 1→3 (E = 1 on both
activities) `find_critical_path` returns a schedule, `([(1,3)], 1)` — no
StructuralError is raised by any code path. -/
theorem c5_counterexample :
    find_critical_path twoSinkEs twoSink1acts = some ([(1, 3)], 1)
    ∧ (some ([(1, 3)], 1) : Option (List Edge × ℕ)) ≠ none := by
  decide

/-- C5 (amended): the code never validates the sink count.  On the two-sink
network 1→2, 1→3 (E = 2 on both activities) the spec-modelled
`compute_schedule` rejects (two sinks → StructuralError, here `none`),
while the code's `find_critical_path` returns the best path between the
min and max node labels. -/
theorem c5_no_structural_error :
    sourceNodes twoSinkEs = [1]
    ∧ sinkNodes twoSinkEs = [2, 3]
    ∧ structural_critical twoSinkEs twoSink2acts = none
    ∧ find_critical_path twoSinkEs twoSink2acts = some ([(1, 3)], 2) := by
  decide

/-- C1 counterexample: in the all-zero parallel network (edges 1→2, 1→3,
2→3 with every estimate 0) the two source-to-sink chains are enumerated
(with equal, greatest E-sum 0), yet the engine returns the empty edge list,
selecting neither chain. -/
theorem c1_counterexample :
    allPathsMinMax zero3es = [[1, 2, 3], [1, 3]]
    ∧ critEdges zero3acts [1, 2, 3] = [(1, 2), (2, 3)]
    ∧ critEdges zero3acts [1, 3] = [(1, 3)]
    ∧ pathDuration zero3acts [1, 2, 3] = 0
    ∧ pathDuration zero3acts [1, 3] = 0
    ∧ find_critical_path zero3es zero3acts = some ([], 0)
    ∧ (([], 0) : List Edge × ℕ) ≠ ([(1, 2), (2, 3)], 0)
    ∧ (([], 0) : List Edge × ℕ) ≠ ([(1, 3)], 0) := by
  decide

/-- C1 (amended): on the spec's parallel-path network the engine returns
`([(1,3)], 4)`; in general, whenever some enumerated source-to-sink chain
has positive E-sum, the engine returns an enumerated chain whose E-sum is
greatest (when all chains have E-sum 0 it returns the empty path instead —
see the counterexample and C10). -/
theorem c1_greatest_e_sum (es : List Edge) (acts : ActMap) (p0 : List ℕ)
    (hn : nodesOf es ≠ [])
    (hp0 : p0 ∈ allPathsMinMax es)
    (hpos : 0 < pathDuration acts p0) :
    find_critical_path demo1es demo1acts = some ([(1, 3)], 4)
    ∧ ∃ r, find_critical_path es acts = some r
        ∧ ∃ pa ∈ allPathsMinMax es,
            r = (critEdges acts pa, pathDuration acts pa)
            ∧ ∀ q ∈ allPathsMinMax es,
                pathDuration acts q ≤ pathDuration acts pa := by
  have hsome : find_critical_path es acts
      = some ((allPathsMinMax es).foldl (bestStep acts) ([], 0)) := by
    unfold find_critical_path
    rw [if_neg hn]
  have hs := find_critical_path_spec es acts _ hsome
  refine ⟨by decide, (allPathsMinMax es).foldl (bestStep acts) ([], 0), hsome, ?_⟩
  rcases hs.2 with h0 | ⟨pa, hpa, heq, _⟩
  · exfalso
    have hle := hs.1 p0 hp0
    rw [h0] at hle
    have hle2 : pathDuration acts p0 ≤ 0 := hle
    omega
  · refine ⟨pa, hpa, heq, ?_⟩
    intro q hq
    have hq2 := hs.1 q hq
    rw [heq] at hq2
    exact hq2

/-- Witness for C1 at the spec's parallel-path network, with the positive
chain 1→3. -/
theorem c1_witness :
    (nodesOf demo1es ≠ [])
    ∧ ([1, 3] ∈ allPathsMinMax demo1es)
    ∧ (0 < pathDuration demo1acts [1, 3])
    ∧ (find_critical_path demo1es demo1acts = some ([(1, 3)], 4)
       ∧ ∃ r, find_critical_path demo1es demo1acts = some r
           ∧ ∃ pa ∈ allPathsMinMax demo1es,
               r = (critEdges demo1acts pa, pathDuration demo1acts pa)
               ∧ ∀ q ∈ allPathsMinMax demo1es,
                   pathDuration demo1acts q ≤ pathDuration demo1acts pa) :=
  ⟨by decide, by decide, by decide,
    c1_greatest_e_sum demo1es demo1acts [1, 3] (by decide) (by decide) (by decide)⟩

/-- C2 counterexample: on the diamond 1→2→4, 1→3→4 with E-values 1, 10, 7,
1 the code's forward pass yields EST(2) = 0 and EST(4) = 10, while the
claimed recurrence (spec forward pass) yields EST(2) = 1 and EST(4) = 11;
the returned total_duration is 11, which also differs from the pass's
EFT(sink) = 17. -/
theorem c2_counterexample :
    lookupNat (forwardPass n2es n2acts).1 2 = some 0
    ∧ lookupNat (specEST n2es n2acts) 2 = some 1
    ∧ lookupNat (forwardPass n2es n2acts).1 4 = some 10
    ∧ lookupNat (specEST n2es n2acts) 4 = some 11
    ∧ lookupNat (forwardPass n2es n2acts).2 4 = some 17
    ∧ find_critical_path n2es n2acts = some ([(1, 3), (3, 4)], 11)
    ∧ (10 : ℕ) ≠ 11 ∧ (11 : ℕ) ≠ 17 := by
  decide

/-- C2 (amended): the returned total_duration is not read from the forward
pass — it is the maximum summed E over the enumerated min-to-max simple
paths (an upper bound attained by one of them when nonzero).  The forward
pass itself attaches to `EFT(p)` the E of the first incoming activity of
`p`, not of the activity `(p → n)`: already on the chain 1→2→3 with
E-values 3, 4 it yields EST(2) = 0 where the claimed recurrence yields 3
(there the sink EFT and the returned duration happen to agree at 7). -/
theorem c2_forward_pass_divergence (es : List Edge) (acts : ActMap)
    (r : List Edge × ℕ) (h : find_critical_path es acts = some r) :
    ((∀ pa ∈ allPathsMinMax es, pathDuration acts pa ≤ r.2)
      ∧ (r = ([], 0) ∨ ∃ pa ∈ allPathsMinMax es,
            r.2 = pathDuration acts pa ∧ r.1 = critEdges acts pa))
    ∧ (lookupNat (forwardPass chainEs chainActs).1 2 = some 0
        ∧ lookupNat (specEST chainEs chainActs) 2 = some 3
        ∧ lookupNat (forwardPass chainEs chainActs).2 3 = some 7
        ∧ find_critical_path chainEs chainActs = some ([(1, 2), (2, 3)], 7)) := by
  have hs := find_critical_path_spec es acts r h
  refine ⟨⟨hs.1, ?_⟩, by decide⟩
  rcases hs.2 with h0 | ⟨pa, hpa, heq, _⟩
  · exact Or.inl h0
  · exact Or.inr ⟨pa, hpa, by rw [heq], by rw [heq]⟩

/-- Witness for C2 at the chain 1→2→3. -/
theorem c2_witness :
    (find_critical_path chainEs chainActs = some ([(1, 2), (2, 3)], 7))
    ∧ (((∀ pa ∈ allPathsMinMax chainEs,
          pathDuration chainActs pa ≤ (([(1, 2), (2, 3)], 7) : List Edge × ℕ).2)
      ∧ ((([(1, 2), (2, 3)], 7) : List Edge × ℕ) = ([], 0)
          ∨ ∃ pa ∈ allPathsMinMax chainEs,
              (([(1, 2), (2, 3)], 7) : List Edge × ℕ).2 = pathDuration chainActs pa
              ∧ (([(1, 2), (2, 3)], 7) : List Edge × ℕ).1 = critEdges chainActs pa))
    ∧ (lookupNat (forwardPass chainEs chainActs).1 2 = some 0
        ∧ lookupNat (specEST chainEs chainActs) 2 = some 3
        ∧ lookupNat (forwardPass chainEs chainActs).2 3 = some 7
        ∧ find_critical_path chainEs chainActs = some ([(1, 2), (2, 3)], 7))) :=
  ⟨by decide,
    c2_forward_pass_divergence chainEs chainActs ([(1, 2), (2, 3)], 7) (by decide)⟩

/-- C3 counterexample: the CLI input loop performs no `O ≤ M ≤ P` check:
adding activity 1-2 with (O, M, P) = (3, 1, 2) to the empty network inserts
both the edge and the activity (E = 1) — nothing is raised and the
activity count grows from 0 to 1. -/
theorem c3_counterexample :
    (cli_add_activity emptyNet 1 2 3 1 2).acts = [((1, 2), ⟨3, 1, 2, 1⟩)]
    ∧ (cli_add_activity emptyNet 1 2 3 1 2).edges = [(1, 2)]
    ∧ emptyNet.acts = [] ∧ emptyNet.edges = [] := by
  decide

/-- C3 (amended): only the ProjectGUI.py variant rejects a triple violating
`O ≤ M ≤ P`, and it does so before any mutation (error dialog and early
return — the state is untouched, though no ValidationError exception is
raised); the ProjectCLI.py and part_000 variants accept the violating
triple and insert both the edge and the activity. -/
theorem c3_validation_divergence (st : NetState) (s e o m p : ℕ)
    (hv : m < o ∨ p < m) :
    gui_on_add_activity st s e o m p = none
    ∧ lookupAct (cli_add_activity st s e o m p).acts (s, e)
        = some ⟨o, m, p, calculate_expected_time o m p⟩
    ∧ (s, e) ∈ (cli_add_activity st s e o m p).edges := by
  refine ⟨?_, ?_, ?_⟩
  · unfold gui_on_add_activity
    rw [if_neg]
    rintro ⟨ha, hb⟩
    omega
  · exact lookupAct_insert st.acts (s, e) _
  · show (s, e) ∈ addEdge st.edges s e
    unfold addEdge
    by_cases hmem : (s, e) ∈ st.edges
    · rw [if_pos hmem]
      exact hmem
    · rw [if_neg hmem]
      simp

/-- Witness for C3 at the empty network with (O, M, P) = (3, 1, 2). -/
theorem c3_witness :
    ((1 : ℕ) < 3 ∨ (2 : ℕ) < 1)
    ∧ (gui_on_add_activity emptyNet 1 2 3 1 2 = none
       ∧ lookupAct (cli_add_activity emptyNet 1 2 3 1 2).acts (1, 2)
           = some ⟨3, 1, 2, calculate_expected_time 3 1 2⟩
       ∧ (1, 2) ∈ (cli_add_activity emptyNet 1 2 3 1 2).edges) :=
  ⟨Or.inl (by norm_num),
    c3_validation_divergence emptyNet 1 2 3 1 2 (Or.inl (by norm_num))⟩

/-- C4 counterexample: with the single-activity critical path of `c4acts`
(O = M = P = 2) the total variance is 0, so the standard deviation is 0,
and at target T = total_duration = 2 both the CLI pipeline (ZeroDivisionError)
and the GUI pipeline (early return after the info dialog) produce no
probability — not the claimed `some 1`. -/
theorem c4_counterexample :
    totalVariance c4acts [(1, 2)] = 0
    ∧ cli_prob (fun z => z) 2 2 0 = none
    ∧ gui_prob (fun z => z) 2 2 0 = none
    ∧ (none : Option ℚ) ≠ some 1
    ∧ (none : Option ℚ) ≠ some 0 := by
  refine ⟨tvC4_eq_zero, ?_, ?_, by simp, by simp⟩
  · unfold cli_prob
    rw [if_pos rfl]
  · unfold gui_prob
    rw [if_pos rfl]

/-- C4 (amended): when every activity on the critical path has O = P the
total variance is 0, hence the standard deviation is 0, and no variant
returns a numeric probability: the ProjectGUI.py handler shows an
informational dialog and returns early, while ProjectCLI.py and part_000
raise ZeroDivisionError — none of them returns 1.0 or 0.0. -/
theorem c4_degenerate_variance (cdf : ℚ → ℚ) (T D : ℤ) (acts : ActMap)
    (cp : List Edge) (σ : ℚ)
    (hall : ∀ kv ∈ acts, kv.1 ∈ cp → kv.2.o = kv.2.p)
    (hσ : σ ^ 2 = totalVariance acts cp) :
    totalVariance acts cp = 0
    ∧ cli_prob cdf T D σ = none
    ∧ gui_prob cdf T D σ = none := by
  have htv : totalVariance acts cp = 0 := by
    apply totalVariance_zero
    intro k hk a ha
    exact hall (k, a) (lookupAct_mem acts k a ha) hk
  have hσ2 : σ ^ 2 = 0 := by rw [hσ, htv]
  have hσ0 : σ = 0 := (pow_eq_zero_iff (by norm_num)).mp hσ2
  refine ⟨htv, ?_, ?_⟩
  · unfold cli_prob
    rw [if_pos hσ0]
  · unfold gui_prob
    rw [if_pos hσ0]

/-- Witness for C4 at the zero-variance single-activity path, T = 1 < 2 = D. -/
theorem c4_witness :
    (∀ kv ∈ c4acts, kv.1 ∈ [((1 : ℕ), (2 : ℕ))] → kv.2.o = kv.2.p)
    ∧ ((0 : ℚ) ^ 2 = totalVariance c4acts [(1, 2)])
    ∧ (totalVariance c4acts [(1, 2)] = 0
        ∧ cli_prob (fun z => z) 1 2 0 = none
        ∧ gui_prob (fun z => z) 1 2 0 = none) :=
  ⟨by decide, by rw [tvC4_eq_zero]; norm_num,
    c4_degenerate_variance (fun z => z) 1 2 c4acts [(1, 2)] 0 (by decide)
      (by rw [tvC4_eq_zero]; norm_num)⟩

/-- C7 counterexample: at the same input (T = 9, D = 0, σ = 1000, so
Z = 0.009) the CLI variant floor-truncates Z to 0 while the GUI variant
rounds it to 0.01 — the implementation variants do not truncate
identically. -/
theorem c7_counterexample :
    cli_prob (fun z => z) 9 0 1000 = some 0
    ∧ gui_prob (fun z => z) 9 0 1000 = some (1 / 100)
    ∧ ((0 : ℚ) ≠ 1 / 100) := by
  have harg : (((9 : ℤ) : ℚ) - ((0 : ℤ) : ℚ)) / 1000 = 9 / 1000 := by norm_num
  refine ⟨?_, ?_, by norm_num⟩
  · unfold cli_prob
    rw [if_neg (by norm_num : (1000 : ℚ) ≠ 0), harg]
    unfold floor2
    have h9 : ((9 : ℚ) / 1000) * 100 = 9 / 10 := by norm_num
    rw [h9]
    have hfl : ⌊(9 / 10 : ℚ)⌋ = 0 := Int.floor_eq_iff.mpr (by norm_num)
    rw [hfl]
    norm_num
  · unfold gui_prob
    rw [if_neg (by norm_num : (1000 : ℚ) ≠ 0), harg]
    unfold round2 roundHalfEven
    have h9 : ((9 : ℚ) / 1000) * 100 = 9 / 10 := by norm_num
    rw [h9]
    have hfl : ⌊(9 / 10 : ℚ)⌋ = 0 := Int.floor_eq_iff.mpr (by norm_num)
    rw [hfl]
    rw [if_neg (by norm_num), if_pos (by norm_num)]
    norm_num

/-- C7 (amended): the CLI/part_000 truncation `floor2` has genuine floor
semantics — it never exceeds Z, lies within 1/100 below it, lands on a
multiple of 1/100, and truncates toward negative infinity also for
negative Z (floor2(−0.004) = −0.01); the ProjectGUI.py variant instead
rounds to the nearest multiple (round2(−0.004) = 0), so the variants
disagree. -/
theorem c7_truncation_semantics (z : ℚ) :
    floor2 z ≤ z
    ∧ z < floor2 z + 1 / 100
    ∧ (∃ n : ℤ, floor2 z = (n : ℚ) / 100)
    ∧ floor2 (-(1 / 250)) = -(1 / 100)
    ∧ round2 (-(1 / 250)) = 0 := by
  refine ⟨?_, ?_, ⟨⌊z * 100⌋, rfl⟩, ?_, ?_⟩
  · unfold floor2
    have h2 : ((⌊z * 100⌋ : ℤ) : ℚ) ≤ z * 100 := Int.floor_le (z * 100)
    linarith
  · unfold floor2
    have h2 : z * 100 < ((⌊z * 100⌋ : ℤ) : ℚ) + 1 := Int.lt_floor_add_one (z * 100)
    linarith
  · unfold floor2
    have h1 : (-(1 / 250) : ℚ) * 100 = -(2 / 5) := by norm_num
    rw [h1]
    have hfl : ⌊(-(2 / 5) : ℚ)⌋ = -1 := Int.floor_eq_iff.mpr (by norm_num)
    rw [hfl]
    norm_num
  · unfold round2 roundHalfEven
    have h1 : (-(1 / 250) : ℚ) * 100 = -(2 / 5) := by norm_num
    rw [h1]
    have hfl : ⌊(-(2 / 5) : ℚ)⌋ = -1 := Int.floor_eq_iff.mpr (by norm_num)
    rw [hfl]
    rw [if_neg (by norm_num), if_pos (by norm_num)]
    norm_num

/-- C8: with a fixed critical path (a fixed positive standard deviation σ)
and a monotone CDF, both the CLI pipeline (floor truncation) and the GUI
pipeline (rounding) return probabilities that never decrease as the target
duration grows. -/
theorem c8_monotone_in_target (cdf : ℚ → ℚ) (hm : Monotone cdf)
    (T1 T2 D : ℤ) (σ : ℚ) (hσ : 0 < σ) (hT : T1 ≤ T2) :
    (∃ p1 p2, cli_prob cdf T1 D σ = some p1
        ∧ cli_prob cdf T2 D σ = some p2 ∧ p1 ≤ p2)
    ∧ (∃ q1 q2, gui_prob cdf T1 D σ = some q1
        ∧ gui_prob cdf T2 D σ = some q2 ∧ q1 ≤ q2) := by
  have hσ0 : σ ≠ 0 := ne_of_gt hσ
  have hnum : ((T1 : ℚ) - (D : ℚ)) ≤ ((T2 : ℚ) - (D : ℚ)) := by
    have hc : (T1 : ℚ) ≤ (T2 : ℚ) := by exact_mod_cast hT
    linarith
  have hdiv : ((T1 : ℚ) - (D : ℚ)) / σ ≤ ((T2 : ℚ) - (D : ℚ)) / σ := by
    rw [div_eq_mul_inv, div_eq_mul_inv]
    exact mul_le_mul_of_nonneg_right hnum (inv_nonneg.mpr (le_of_lt hσ))
  constructor
  · refine ⟨cdf (floor2 (((T1 : ℚ) - (D : ℚ)) / σ)),
      cdf (floor2 (((T2 : ℚ) - (D : ℚ)) / σ)), ?_, ?_, ?_⟩
    · unfold cli_prob
      rw [if_neg hσ0]
    · unfold cli_prob
      rw [if_neg hσ0]
    · exact hm (floor2_mono hdiv)
  · refine ⟨cdf (round2 (((T1 : ℚ) - (D : ℚ)) / σ)),
      cdf (round2 (((T2 : ℚ) - (D : ℚ)) / σ)), ?_, ?_, ?_⟩
    · unfold gui_prob
      rw [if_neg hσ0]
    · unfold gui_prob
      rw [if_neg hσ0]
    · exact hm (round2_mono hdiv)

/-- Witness for C8 with the identity CDF, targets 0 ≤ 1, σ = 1. -/
theorem c8_witness :
    Monotone (fun z : ℚ => z)
    ∧ (0 : ℚ) < 1
    ∧ (0 : ℤ) ≤ 1
    ∧ ((∃ p1 p2, cli_prob (fun z : ℚ => z) 0 0 1 = some p1
          ∧ cli_prob (fun z : ℚ => z) 1 0 1 = some p2 ∧ p1 ≤ p2)
      ∧ (∃ q1 q2, gui_prob (fun z : ℚ => z) 0 0 1 = some q1
          ∧ gui_prob (fun z : ℚ => z) 1 0 1 = some q2 ∧ q1 ≤ q2)) :=
  ⟨fun _ _ h => h, by norm_num, by norm_num,
    c8_monotone_in_target (fun z : ℚ => z) (fun _ _ h => h) 0 1 0 1
      (by norm_num) (by norm_num)⟩

end PertCpm
